import Mathlib

/-!
Shallow embedding of the palettez theme store (`src/palettez/src/index.ts`).

JavaScript objects used as string-keyed records are embedded as association
lists (`SMap`); object spread `{...a, ...b}` is `SMap.merge`, property
assignment `o[k] = v` is `SMap.set`, property lookup `o[k]` is `SMap.lookup`
(with `none` standing for `undefined`).  A runtime `TypeError` caused by
reading a property of `undefined` is embedded as an `Option` returning
`none`.  Console warnings are tracked as counts, and side effects of the
store's operations (listener notifications, `storage.setItem`,
`storage.broadcast`) are tracked as explicit `Effect` lists.
-/

namespace Palettez

/-- Association list standing for a JavaScript string-keyed object. -/
abbrev SMap (α : Type) := List (String × α)

namespace SMap

/-- Property read `m[k]`: the first entry with key `k`, as in a JS object
(where keys are unique, so first = only). -/
def lookup {α : Type} (m : SMap α) (k : String) : Option α :=
  match m with
  | [] => none
  | (k', v) :: rest => if k' = k then some v else lookup rest k

/-- Property assignment `m[k] = v`: update in place if present, append if not. -/
def set {α : Type} (m : SMap α) (k : String) (v : α) : SMap α :=
  match m with
  | [] => [(k, v)]
  | (k', v') :: rest => if k' = k then (k, v) :: rest else (k', v') :: set rest k v

/-- Property deletion (used for `Map.delete` in the registry). -/
def erase {α : Type} (m : SMap α) (k : String) : SMap α :=
  match m with
  | [] => []
  | (k', v) :: rest => if k' = k then erase rest k else (k', v) :: erase rest k

/-- Object spread `{...a, ...b}`: keys of `a` in order with `b`'s values
winning, then keys of `b` absent from `a`. -/
def merge {α : Type} (a b : SMap α) : SMap α :=
  a.map (fun p => (p.1, (lookup b p.1).getD p.2)) ++
    b.filter (fun p => (lookup a p.1).isNone)

end SMap

/-- `const PACKAGE_NAME = 'palettez'`. -/
def PACKAGE_NAME : String := "palettez"

/-- `ThemeOption`: `{ value: string; media?: [string, string, string] }`. -/
structure ThemeOption where
  value : String
  media : Option (String × String × String)
  deriving DecidableEq

/-- One element of `ThemeConfig[...].options : Array<string | ThemeOption>`. -/
inductive ConfigOption where
  | str (s : String)
  | opt (o : ThemeOption)
  deriving DecidableEq

/-- One value of the `ThemeConfig` record:
`{ options: Array<string | ThemeOption>; defaultOption?: string }`. -/
structure DimensionConfig where
  options : List ConfigOption
  defaultOption : Option String
  deriving DecidableEq

/-- `typeof option === 'string' ? option : option.value`. -/
def ConfigOption.optValue : ConfigOption → String
  | .str s => s
  | .opt o => o.value

/-- Per-dimension half of `getDefaultThemes`:
`defaultOption ?? (typeof options[0] === 'string' ? options[0] : options[0]!.value)`;
`none` embeds the `TypeError` thrown when `options` is empty and no
`defaultOption` is given. -/
def dimensionDefault (d : DimensionConfig) : Option String :=
  match d.defaultOption with
  | some v => some v
  | none => d.options.head?.map ConfigOption.optValue

/-- `getDefaultThemes`: one default per dimension, in configuration order. -/
def getDefaultThemes (config : SMap DimensionConfig) : Option (SMap String) :=
  config.mapM (fun p => (dimensionDefault p.2).map (fun v => (p.1, v)))

/-- The inner loop of the constructor filling `keyedConfig[themeKey]`:
string options become `{ value: option }`, `ThemeOption`s are keyed by their
`value` field. -/
def buildDimKeyed (base : SMap ThemeOption) (opts : List ConfigOption) : SMap ThemeOption :=
  opts.foldl
    (fun acc o =>
      match o with
      | .str s => acc.set s ⟨s, none⟩
      | .opt t => acc.set t.value t)
    base

/-- The constructor's `keyedConfig` accumulation (`keyedConfig[themeKey] =
keyedConfig[themeKey] || {}` followed by per-option assignments). -/
def buildKeyedConfig (config : SMap DimensionConfig) : SMap (SMap ThemeOption) :=
  config.foldl
    (fun acc p => acc.set p.1 (buildDimKeyed ((acc.lookup p.1).getD []) p.2.options))
    []

/-- The constructor's `systemOptions` seeding.  `initSys = none` embeds a
missing `initialState.systemOptions` (the seed object is fresh, so every
media option is seeded); `initSys = some m` embeds a caller-provided object,
which the source mutates in place, so the guard
`!initialState.systemOptions?.[themeKey]` observes earlier seeds. -/
def seedSystemOptions (config : SMap DimensionConfig)
    (initSys : Option (SMap (String × String))) : SMap (String × String) :=
  config.foldl
    (fun acc p =>
      p.2.options.foldl
        (fun acc2 o =>
          match o with
          | .str _ => acc2
          | .opt t =>
            match t.media with
            | none => acc2
            | some (_, ifMatch, ifNotMatch) =>
              if initSys.isSome && (acc2.lookup p.1).isSome then acc2
              else acc2.set p.1 (ifMatch, ifNotMatch))
        acc)
    (initSys.getD [])

/-- The runtime environment: `isClient` (DOM availability probe) and the
live `window.matchMedia(query).matches` states. -/
structure Env where
  isClient : Bool
  mqMatches : String → Bool

/-- `initialState` constructor option (`Partial<PersistedState>`); a missing
`themes` field is the empty overlay. -/
structure InitialState where
  themes : SMap String
  systemOptions : Option (SMap (String × String))

/-- The persisted envelope `{ version: 1, themes, systemOptions }`. -/
structure PersistedState where
  version : Nat
  themes : SMap String
  systemOptions : SMap (String × String)
  deriving DecidableEq

/-- In-memory state of a `ThemeStore` instance.  `mediaQueryCache` records,
per distinct media-query expression, the `(themeKey, option.value)` pair
captured by the single `change` listener registered for that expression;
`listeners` is the size of the subscriber set; `aborted` is the state of the
instance's `AbortController`. -/
structure ThemeStoreState where
  key : String
  config : SMap (SMap ThemeOption)
  defaultThemes : SMap String
  currentThemes : SMap String
  systemOptions : SMap (String × String)
  mediaQueryCache : SMap (String × String)
  listeners : Nat
  aborted : Bool
  deriving DecidableEq

/-- Observable side effects of store operations: a listener invocation
(with the selection and the freshly resolved view), `storage.setItem`, and
`storage.broadcast`. -/
inductive Effect where
  | notify (themes resolved : SMap String)
  | setItem (key : String) (value : PersistedState)
  | broadcast (key : String) (value : PersistedState)
  deriving DecidableEq

/-- The `ThemeStore` constructor.  `none` embeds the `TypeError` thrown by
`getDefaultThemes` on a dimension with no options and no default. -/
def mkThemeStore (key : Option String) (config : SMap DimensionConfig)
    (initialState : InitialState) : Option ThemeStoreState :=
  (getDefaultThemes config).map fun defaults =>
    { key := key.getD PACKAGE_NAME
      config := buildKeyedConfig config
      defaultThemes := defaults
      currentThemes := SMap.merge defaults initialState.themes
      systemOptions := seedSystemOptions config initialState.systemOptions
      mediaQueryCache := []
      listeners := 0
      aborted := false }

/-- `ThemeStore.#resolveThemeOption`.  Returns the resolved string, the
updated media-query cache (registration happens once per distinct query
expression, capturing this call's `themeKey`/`option`), and the number of
`console.warn` calls.  `none` embeds the `TypeError` thrown by destructuring
`this.#systemOptions[themeKey]!` when that entry is missing. -/
def resolveThemeOption (env : Env) (sysOpts : SMap (String × String))
    (cache : SMap (String × String)) (themeKey : String) (option : ThemeOption) :
    Option (String × SMap (String × String) × Nat) :=
  match option.media with
  | none => some (option.value, cache, 0)
  | some (mq, _, _) =>
    if env.isClient = false then
      some (option.value, cache, 1)
    else
      let cache' :=
        if (cache.lookup mq).isSome then cache
        else cache.set mq (themeKey, option.value)
      match sysOpts.lookup themeKey with
      | none => none
      | some (ifMatch, ifNotMatch) =>
        some (if env.mqMatches mq then ifMatch else ifNotMatch, cache', 0)

/-- `ThemeStore.#resolveThemes`, unrolled over the entries of
`this.#currentThemes` while threading the media-query cache.  Returns the
resolved entries, the final cache, and the total warning count; `none`
embeds the `TypeError` thrown when `this.#options.config[themeKey]![optionKey]!`
is `undefined` (or when `#resolveThemeOption` throws). -/
def resolveThemesAux (env : Env) (config : SMap (SMap ThemeOption))
    (sysOpts : SMap (String × String)) :
    List (String × String) → SMap (String × String) →
    Option (SMap String × SMap (String × String) × Nat)
  | [], cache => some ([], cache, 0)
  | (themeKey, optionKey) :: rest, cache =>
    match config.lookup themeKey with
    | none => none
    | some dimCfg =>
      match dimCfg.lookup optionKey with
      | none => none
      | some option =>
        match resolveThemeOption env sysOpts cache themeKey option with
        | none => none
        | some (val, cache1, w1) =>
          match resolveThemesAux env config sysOpts rest cache1 with
          | none => none
          | some (vs, cache2, w2) => some ((themeKey, val) :: vs, cache2, w1 + w2)

/-- `ThemeStore.getThemes`. -/
def getThemes (st : ThemeStoreState) : SMap String :=
  st.currentThemes

/-- `ThemeStore.getResolvedThemes`: a fresh `#resolveThemes()` call.  The
returned state carries the cache registrations; the `Nat` counts warnings. -/
def getResolvedThemes (env : Env) (st : ThemeStoreState) :
    Option (SMap String × ThemeStoreState × Nat) :=
  (resolveThemesAux env st.config st.systemOptions st.currentThemes st.mediaQueryCache).map
    fun r => (r.1, { st with mediaQueryCache := r.2.1 }, r.2.2)

/-- `ThemeStore.#notify`, one iteration per registered listener: each
listener receives `this.#currentThemes` together with a fresh
`this.#resolveThemes()` result. -/
def notifyLoop (env : Env) (config : SMap (SMap ThemeOption))
    (sysOpts : SMap (String × String)) (themes : SMap String) :
    Nat → SMap (String × String) → Option (SMap (String × String) × List Effect)
  | 0, cache => some (cache, [])
  | n + 1, cache =>
    match resolveThemesAux env config sysOpts themes cache with
    | none => none
    | some (vs, cache1, _) =>
      match notifyLoop env config sysOpts themes n cache1 with
      | none => none
      | some (cache2, effs) => some (cache2, Effect.notify themes vs :: effs)

/-- `ThemeStore.#notify` applied to a store state. -/
def notifyStore (env : Env) (st : ThemeStoreState) :
    Option (ThemeStoreState × List Effect) :=
  (notifyLoop env st.config st.systemOptions st.currentThemes st.listeners
      st.mediaQueryCache).map
    fun r => ({ st with mediaQueryCache := r.1 }, r.2)

/-- `ThemeStore.#setThemesAndNotify`. -/
def setThemesAndNotify (env : Env) (st : ThemeStoreState) (themes : SMap String) :
    Option (ThemeStoreState × List Effect) :=
  notifyStore env { st with currentThemes := themes }

/-- `ThemeStore.getStateToPersist`. -/
def getStateToPersist (st : ThemeStoreState) : PersistedState :=
  { version := 1
    themes := st.currentThemes
    systemOptions := st.systemOptions }

/-- Argument of `ThemeStore.setThemes`: a partial record or an updater
function. -/
inductive ThemesArg where
  | patch (m : SMap String)
  | updater (f : SMap String → SMap String)

/-- `typeof themes === 'function' ? themes(this.#currentThemes) : themes`. -/
def ThemesArg.updateValue (cur : SMap String) : ThemesArg → SMap String
  | .patch m => m
  | .updater f => f cur

/-- `ThemeStore.setThemes`.  `setItemFails` is the behaviour of the awaited
`storage.setItem` call; when it rejects, the returned `Bool` is `false`
(the promise returned to the caller rejects) and `storage.broadcast` is
never reached.  `none` embeds a synchronous throw inside the notification
pass, which precedes any persistence. -/
def setThemes (env : Env) (st : ThemeStoreState) (themes : ThemesArg)
    (setItemFails : Bool) : Option (ThemeStoreState × List Effect × Bool) :=
  let updatedThemes := themes.updateValue st.currentThemes
  match setThemesAndNotify env st (SMap.merge st.currentThemes updatedThemes) with
  | none => none
  | some (st', effs) =>
    let stateToPersist := getStateToPersist st'
    if setItemFails then
      some (st', effs ++ [Effect.setItem st.key stateToPersist], false)
    else
      some (st', effs ++ [Effect.setItem st.key stateToPersist,
                          Effect.broadcast st.key stateToPersist], true)

/-- `ThemeStore.subscribe`: with `immediate`, the callback is invoked once
synchronously with the current selection and a fresh resolution, then the
listener is added. -/
def subscribe (env : Env) (st : ThemeStoreState) (immediate : Bool) :
    Option (ThemeStoreState × List Effect) :=
  if immediate then
    match resolveThemesAux env st.config st.systemOptions st.currentThemes
        st.mediaQueryCache with
    | none => none
    | some (vs, cache, _) =>
      some ({ st with mediaQueryCache := cache, listeners := st.listeners + 1 },
            [Effect.notify st.currentThemes vs])
  else
    some ({ st with listeners := st.listeners + 1 }, [])

/-- The value delivered by `storage.getItem`: either a legacy bare map
(no `version` field) or a versioned envelope. -/
inductive StoredPayload where
  | legacy (themes : SMap String)
  | versioned (p : PersistedState)

/-- `ThemeStore.restore`, with the awaited `storage.getItem` result passed
in as `got` (`none` = nothing persisted / `null`). -/
def restore (env : Env) (st : ThemeStoreState) (got : Option StoredPayload) :
    Option (ThemeStoreState × List Effect) :=
  match got with
  | none => setThemesAndNotify env st st.defaultThemes
  | some payload =>
    let p : PersistedState :=
      match payload with
      | .legacy themes => { version := 1, themes := themes, systemOptions := st.systemOptions }
      | .versioned pv => pv
    let st' := { st with systemOptions := SMap.merge st.systemOptions p.systemOptions }
    setThemesAndNotify env st' (SMap.merge st.defaultThemes p.themes)

/-- The callback installed by `ThemeStore.sync` on `storage.watch`, applied
to one external event `(key, persistedState)`.  The `aborted` guard embeds
the cancellation of the watch subscription.  Modelled from the spec for the
missing `src/palettez/src/storage.ts`: the watch subscription is revoked by
the store's `AbortController`, so no callback runs after `destroy`; the
handler body is translated from `ThemeStore.sync` in `index.ts`. -/
def syncEvent (env : Env) (st : ThemeStoreState) (key : String)
    (p : PersistedState) : Option (ThemeStoreState × List Effect) :=
  if st.aborted then some (st, [])
  else if key ≠ st.key then some (st, [])
  else
    setThemesAndNotify env { st with systemOptions := p.systemOptions } p.themes

/-- The `change` listener registered on a `MediaQueryList` inside
`#resolveThemeOption`, applied to a flip of the query `mq` under the new
environment `env`.  The listener exists only for cached expressions, was
registered with `{ signal: this.#abortController.signal }` (hence the
`aborted` guard), and checks the `themeKey`/`option` captured at
registration time. -/
def mediaChange (env : Env) (st : ThemeStoreState) (mq : String) :
    Option (ThemeStoreState × List Effect) :=
  if st.aborted then some (st, [])
  else
    match st.mediaQueryCache.lookup mq with
    | none => some (st, [])
    | some (themeKey, optionValue) =>
      if st.currentThemes.lookup themeKey = some optionValue then
        setThemesAndNotify env st st.currentThemes
      else
        some (st, [])

/-- `ThemeStore._destroy`: `#listeners.clear()` and
`#abortController.abort()`. -/
def destroyStore (st : ThemeStoreState) : ThemeStoreState :=
  { st with listeners := 0, aborted := true }

/-- `options.key || PACKAGE_NAME` (note `||`: the empty string also falls
back to the default key). -/
def registryKey (key : Option String) : String :=
  match key with
  | none => PACKAGE_NAME
  | some s => if s = "" then PACKAGE_NAME else s

/-- The module-level `Registry`'s `Map<string, ThemeStore>`. -/
structure RegistryState where
  reg : SMap ThemeStoreState
  deriving DecidableEq

/-- Options of `Registry.create` / the `ThemeStore` constructor. -/
structure StoreOptions where
  key : Option String
  config : SMap DimensionConfig
  initialState : InitialState

/-- `Registry.get`: `Except.error ()` embeds the thrown not-found `Error`. -/
def registryGet (r : RegistryState) (key : Option String) :
    Except Unit ThemeStoreState :=
  match r.reg.lookup (registryKey key) with
  | none => .error ()
  | some st => .ok st

/-- `Registry.destroy`: throws not-found, otherwise calls the store's
`_destroy` and deletes the entry; the destroyed instance's final state is
returned for observation. -/
def registryDestroy (r : RegistryState) (key : Option String) :
    Except Unit (RegistryState × ThemeStoreState) :=
  match r.reg.lookup (registryKey key) with
  | none => .error ()
  | some st => .ok (⟨r.reg.erase (registryKey key)⟩, destroyStore st)

/-- `Registry.create`: replace semantics.  Returns the new registry, the new
store, and (when the key was taken) the final state of the destroyed
previous instance.  `none` embeds a throwing `ThemeStore` constructor. -/
def registryCreate (r : RegistryState) (opts : StoreOptions) :
    Option (RegistryState × ThemeStoreState × Option ThemeStoreState) :=
  let storeKey := registryKey opts.key
  let destroyed :=
    match r.reg.lookup storeKey with
    | none => (r, (none : Option ThemeStoreState))
    | some old => (⟨r.reg.erase storeKey⟩, some (destroyStore old))
  match mkThemeStore opts.key opts.config opts.initialState with
  | none => none
  | some newStore =>
    some (⟨destroyed.1.reg.set storeKey newStore⟩, newStore, destroyed.2)

/-- The cache-independent part of `#resolveThemeOption`: the resolved string
and warning count (used to characterise resolution results per dimension). -/
def resolveOptionValueWarn (env : Env) (sysOpts : SMap (String × String))
    (themeKey : String) (option : ThemeOption) : Option (String × Nat) :=
  match option.media with
  | none => some (option.value, 0)
  | some (mq, _, _) =>
    if env.isClient = false then some (option.value, 1)
    else
      match sysOpts.lookup themeKey with
      | none => none
      | some (ifMatch, ifNotMatch) =>
        some (if env.mqMatches mq then ifMatch else ifNotMatch, 0)

/-- Whether an effect is a listener invocation. -/
def Effect.isNotify : Effect → Bool
  | .notify _ _ => true
  | _ => false

/-- Whether an effect is a `storage.setItem` call. -/
def Effect.isSetItem : Effect → Bool
  | .setItem _ _ => true
  | _ => false

/-- Number of listener invocations in an effect trace. -/
def countNotify (effs : List Effect) : Nat :=
  (effs.filter Effect.isNotify).length

/-- Invariant of the keyed configuration: every option is keyed by its own
`value` field (`keyedConfig[themeKey][option] = {value: option}` for string
options, `keyedConfig[themeKey][option.value] = option` otherwise). -/
def OptionKeyedDim (d : SMap ThemeOption) : Prop :=
  ∀ k o, SMap.lookup d k = some o → o.value = k

/-- Decidable check: every entry of the selection names a configured
dimension and one of its configured options. -/
def inConfigB (config : SMap (SMap ThemeOption)) (selection : SMap String) : Bool :=
  selection.all (fun p =>
    match SMap.lookup config p.1 with
    | none => false
    | some d => (SMap.lookup d p.2).isSome)

/-- Decidable check: every selected environment-derived option has a
`systemOptions` entry for its dimension (the invariant the constructor
seeds and `setThemes` preserves). -/
def sysCoverB (st : ThemeStoreState) : Bool :=
  st.currentThemes.all (fun p =>
    match (SMap.lookup st.config p.1).bind (fun d => SMap.lookup d p.2) with
    | none => true
    | some o =>
      match o.media with
      | none => true
      | some _ => (SMap.lookup st.systemOptions p.1).isSome)

/-! Concrete environments, configurations and stores used by the claim
witnesses and counterexamples. -/

/-- A client environment where no media query matches. -/
def envNoMatch : Env := ⟨true, fun _ => false⟩

/-- A client environment where exactly the query `"mq"` matches. -/
def envMatchMq : Env := ⟨true, fun s => s = "mq"⟩

/-- Two plain (non-environment) dimensions. -/
def cfgPlain : SMap DimensionConfig :=
  [("a", ⟨[.str "x", .str "x2"], none⟩), ("b", ⟨[.str "y"], none⟩)]

/-- The store built from `cfgPlain` with no initial state. -/
def stPlain : ThemeStoreState :=
  { key := "palettez"
    config := [("a", [("x", ⟨"x", none⟩), ("x2", ⟨"x2", none⟩)]),
               ("b", [("y", ⟨"y", none⟩)])]
    defaultThemes := [("a", "x"), ("b", "y")]
    currentThemes := [("a", "x"), ("b", "y")]
    systemOptions := []
    mediaQueryCache := []
    listeners := 0
    aborted := false }

/-- `stPlain` after selecting `"x2"` for dimension `"a"`. -/
def stPlainX2 : ThemeStoreState :=
  { stPlain with currentThemes := [("a", "x2"), ("b", "y")] }

/-- The envelope persisted after that selection. -/
def persistX2 : PersistedState :=
  { version := 1, themes := [("a", "x2"), ("b", "y")], systemOptions := [] }

/-- One dimension whose default option is environment-derived. -/
def cfgMedia : SMap DimensionConfig :=
  [("a", ⟨[.opt ⟨"sys", some ("mq", "dark", "light")⟩, .str "light"], none⟩)]

/-- The store built from `cfgMedia` with no initial state. -/
def stMedia : ThemeStoreState :=
  { key := "palettez"
    config := [("a", [("sys", ⟨"sys", some ("mq", "dark", "light")⟩),
                      ("light", ⟨"light", none⟩)])]
    defaultThemes := [("a", "sys")]
    currentThemes := [("a", "sys")]
    systemOptions := [("a", ("dark", "light"))]
    mediaQueryCache := []
    listeners := 0
    aborted := false }

/-- `stMedia` after a resolution pass registered the `"mq"` listener. -/
def stMediaReg : ThemeStoreState :=
  { stMedia with mediaQueryCache := [("mq", ("a", "sys"))] }

/-- `stMediaReg` with one subscriber. -/
def stMediaRegL : ThemeStoreState := { stMediaReg with listeners := 1 }

/-- Two dimensions sharing the same media-query expression `"mq"`. -/
def cfgShared : SMap DimensionConfig :=
  [("a", ⟨[.opt ⟨"sys", some ("mq", "dark", "light")⟩, .str "light"], none⟩),
   ("b", ⟨[.opt ⟨"auto", some ("mq", "on", "off")⟩], none⟩)]

/-- One dimension with only an environment-derived option. -/
def cfgMediaOnly : SMap DimensionConfig :=
  [("a", ⟨[.opt ⟨"sys", some ("mq", "dark", "light")⟩], none⟩)]

/-- Caller-provided initial `systemOptions` (used to observe `sync`
discarding overrides). -/
def initSysPQ : InitialState := ⟨[], some [("a", ("p", "q"))]⟩

/-- A versioned payload carrying its own overrides. -/
def persistRS : PersistedState := ⟨1, [("a", "x2")], [("b", ("r", "s"))]⟩

/-- `stPlain` after the sync handler installed `persistRS` wholesale. -/
def stSyncReplaced : ThemeStoreState :=
  { stPlain with
    currentThemes := [("a", "x2")]
    systemOptions := [("b", ("r", "s"))] }

/-- The shared-expression scenario: build a store from `cfgShared`,
subscribe one listener, resolve once (registering the single `"mq"` change
listener, which captures `("a", "sys")`), then switch dimension `"a"` to
`"light"`. -/
def c5state : Option ThemeStoreState :=
  (mkThemeStore none cfgShared ⟨[], none⟩).bind (fun st0 =>
  (subscribe envNoMatch st0 false).bind (fun r1 =>
  (getResolvedThemes envNoMatch r1.1).bind (fun r2 =>
  (setThemes envNoMatch r2.2.1 (.patch [("a", "light")]) false).map (fun r3 =>
    r3.1))))

namespace SMap

theorem lookup_set {α : Type} (m : SMap α) (k k' : String) (v : α) :
    lookup (set m k v) k' = if k = k' then some v else lookup m k' := by
  induction m with
  | nil => simp only [set, lookup]
  | cons p rest ih =>
    obtain ⟨k1, v1⟩ := p
    simp only [set]
    by_cases h1 : k1 = k
    · rw [if_pos h1]
      simp only [lookup]
      by_cases h2 : k = k'
      · simp [h2]
      · have h3 : ¬ k1 = k' := fun h => h2 (h1.symm.trans h)
        simp [h2, h3, lookup]
    · rw [if_neg h1]
      simp only [lookup]
      by_cases h2 : k1 = k'
      · have h3 : ¬ k = k' := fun h => h1 (h2.trans h.symm)
        simp [h2, h3]
      · simp [h2, ih]

theorem lookup_append {α : Type} (xs ys : SMap α) (k : String) :
    lookup (xs ++ ys) k =
      match lookup xs k with
      | some v => some v
      | none => lookup ys k := by
  induction xs with
  | nil => simp [lookup]
  | cons p rest ih =>
    by_cases h : p.1 = k
    · simp [lookup, h]
    · simp [lookup, h, ih]

theorem lookup_map_getD {α : Type} (a b : SMap α) (k : String) :
    lookup (a.map (fun p => (p.1, (lookup b p.1).getD p.2))) k =
      (lookup a k).map (fun v => (lookup b k).getD v) := by
  induction a with
  | nil => simp [lookup]
  | cons p rest ih =>
    by_cases h : p.1 = k
    · subst h
      simp [lookup, ih]
    · simp [lookup, h, ih]

theorem lookup_filter_isNone_of_isSome {α : Type} (a b : SMap α) (k : String)
    (h : (lookup a k).isSome) :
    lookup (b.filter (fun p => (lookup a p.1).isNone)) k = none := by
  induction b with
  | nil => simp [lookup]
  | cons p rest ih =>
    obtain ⟨k1, v1⟩ := p
    by_cases hk : k1 = k
    · have hno : ((lookup a (k1, v1).1).isNone) = false := by
        rw [hk]
        cases hx : lookup a k
        · rw [hx] at h
          simp at h
        · simp
      rw [List.filter_cons_of_neg (by simp [hno])]
      exact ih
    · cases hd : ((lookup a (k1, v1).1).isNone)
      · rw [List.filter_cons_of_neg (by simp [hd])]
        exact ih
      · rw [List.filter_cons_of_pos (by simp [hd])]
        simpa [lookup, hk] using ih

theorem lookup_filter_isNone_of_none {α : Type} (a b : SMap α) (k : String)
    (h : lookup a k = none) :
    lookup (b.filter (fun p => (lookup a p.1).isNone)) k = lookup b k := by
  induction b with
  | nil => simp
  | cons p rest ih =>
    obtain ⟨k1, v1⟩ := p
    by_cases hk : k1 = k
    · have hno : ((lookup a (k1, v1).1).isNone) = true := by
        simp [hk, h]
      rw [List.filter_cons_of_pos (by simp [hno])]
      simp [lookup, hk, ih]
    · cases hd : ((lookup a (k1, v1).1).isNone)
      · rw [List.filter_cons_of_neg (by simp [hd])]
        rw [ih]
        simp [lookup, hk]
      · rw [List.filter_cons_of_pos (by simp [hd])]
        simp [lookup, hk, ih]

/-- Spread semantics: in `{...a, ...b}`, a key present in `b` takes `b`'s
value; otherwise the key falls back to `a`. -/
theorem lookup_merge {α : Type} (a b : SMap α) (k : String) :
    lookup (merge a b) k =
      match lookup b k with
      | some v => some v
      | none => lookup a k := by
  unfold merge
  rw [lookup_append, lookup_map_getD]
  cases ha : lookup a k with
  | none =>
    rw [lookup_filter_isNone_of_none a b k ha]
    cases lookup b k <;> simp
  | some va =>
    rw [lookup_filter_isNone_of_isSome a b k (by simp [ha])]
    cases lookup b k <;> simp

theorem lookup_merge_some {α : Type} (a b : SMap α) (k : String) (v : α)
    (h : lookup b k = some v) : lookup (merge a b) k = some v := by
  rw [lookup_merge, h]

theorem lookup_merge_none {α : Type} (a b : SMap α) (k : String)
    (h : lookup b k = none) : lookup (merge a b) k = lookup a k := by
  rw [lookup_merge, h]

theorem lookup_erase_self {α : Type} (m : SMap α) (k : String) :
    lookup (erase m k) k = none := by
  induction m with
  | nil => simp [erase, lookup]
  | cons p rest ih =>
    obtain ⟨k1, v1⟩ := p
    by_cases hk : k1 = k
    · simpa [erase, hk] using ih
    · simpa [erase, hk, lookup] using ih

theorem lookup_mem {α : Type} (m : SMap α) (k : String) (v : α)
    (h : lookup m k = some v) : (k, v) ∈ m := by
  induction m with
  | nil => simp [lookup] at h
  | cons p rest ih =>
    obtain ⟨k1, v1⟩ := p
    simp only [lookup] at h
    split at h
    · rename_i heq
      injection h with h2
      subst h2
      subst heq
      exact List.mem_cons_self _ _
    · exact List.mem_cons_of_mem _ (ih h)

end SMap

/-- The resolved value and warning count of `#resolveThemeOption` do not
depend on the media-query cache. -/
theorem resolveThemeOption_val (env : Env) (sysOpts cache : SMap (String × String))
    (themeKey : String) (option : ThemeOption) :
    (resolveThemeOption env sysOpts cache themeKey option).map (fun r => (r.1, r.2.2)) =
      resolveOptionValueWarn env sysOpts themeKey option := by
  unfold resolveThemeOption resolveOptionValueWarn
  cases hm : option.media with
  | none => simp
  | some m =>
    obtain ⟨mq, a, b⟩ := m
    by_cases hc : env.isClient = false
    · simp [hc]
    · cases hs : sysOpts.lookup themeKey with
      | none => simp [hc, hs]
      | some pr =>
        obtain ⟨x, y⟩ := pr
        simp [hc, hs]

/-- Per-dimension characterisation of `#resolveThemes`: if the entries
resolve successfully and dimension `k` selects `v`, the output at `k` is the
cache-independent resolution of the configured option for `v`, and its
warnings are included in the total. -/
theorem resolveAux_lookup (env : Env) (config : SMap (SMap ThemeOption))
    (sysOpts : SMap (String × String)) (k v : String) :
    ∀ (entries : List (String × String)) (cache : SMap (String × String))
      (vs : SMap String) (cache' : SMap (String × String)) (W : Nat),
    resolveThemesAux env config sysOpts entries cache = some (vs, cache', W) →
    SMap.lookup entries k = some v →
    ∃ dimCfg option val w,
      SMap.lookup config k = some dimCfg ∧
      SMap.lookup dimCfg v = some option ∧
      resolveOptionValueWarn env sysOpts k option = some (val, w) ∧
      SMap.lookup vs k = some val ∧ w ≤ W := by
  intro entries
  induction entries with
  | nil =>
    intro cache vs cache' W h hl
    simp [SMap.lookup] at hl
  | cons p rest ih =>
    obtain ⟨tk, ov⟩ := p
    intro cache vs cache' W h hl
    simp only [resolveThemesAux] at h
    split at h
    · cases h
    rename_i dimCfg hcfg
    split at h
    · cases h
    rename_i option hopt
    split at h
    · cases h
    rename_i val0 cache1 w1 hro
    split at h
    · cases h
    rename_i vs1 cache2 w2 hrest
    injection h with h2
    obtain ⟨hvs, hc2, hW⟩ : vs = (tk, val0) :: vs1 ∧ cache' = cache2 ∧ W = w1 + w2 := by
      refine ⟨congrArg Prod.fst h2.symm, ?_, ?_⟩
      · exact (congrArg (fun q => q.2.1) h2).symm
      · exact (congrArg (fun q => q.2.2) h2).symm
    by_cases htk : tk = k
    · subst htk
      simp only [SMap.lookup, if_pos rfl] at hl
      injection hl with hl2
      subst hl2
      have hval : resolveOptionValueWarn env sysOpts tk option = some (val0, w1) := by
        rw [← resolveThemeOption_val env sysOpts cache tk option, hro]
        rfl
      refine ⟨dimCfg, option, val0, w1, hcfg, hopt, hval, ?_, ?_⟩
      · rw [hvs]
        simp [SMap.lookup]
      · rw [hW]
        exact Nat.le_add_right _ _
    · simp only [SMap.lookup, if_neg htk] at hl
      obtain ⟨dimCfg', option', val, w, h1, h2', h3, h4, h5⟩ :=
        ih cache1 vs1 cache2 w2 hrest hl
      refine ⟨dimCfg', option', val, w, h1, h2', h3, ?_, ?_⟩
      · rw [hvs]
        simpa [SMap.lookup, htk] using h4
      · rw [hW]
        exact Nat.le_trans h5 (Nat.le_add_left _ _)

/-- `#notify` invokes each of the `n` registered listeners exactly once,
passing the fixed selection and a fresh resolution. -/
theorem notifyLoop_spec (env : Env) (config : SMap (SMap ThemeOption))
    (sysOpts : SMap (String × String)) (themes : SMap String) :
    ∀ (n : Nat) (cache cache' : SMap (String × String)) (effs : List Effect),
    notifyLoop env config sysOpts themes n cache = some (cache', effs) →
    countNotify effs = n ∧ ∀ e ∈ effs, ∃ vs, e = Effect.notify themes vs := by
  intro n
  induction n with
  | zero =>
    intro cache cache' effs h
    simp only [notifyLoop] at h
    injection h with h2
    have he : effs = [] := (congrArg Prod.snd h2).symm
    subst he
    simp [countNotify]
  | succ n ih =>
    intro cache cache' effs h
    simp only [notifyLoop] at h
    split at h
    · cases h
    rename_i vs cache1 w hres
    split at h
    · cases h
    rename_i cache2 effs1 hloop
    injection h with h2
    have he : effs = Effect.notify themes vs :: effs1 := (congrArg Prod.snd h2).symm
    subst he
    obtain ⟨hcnt, hall⟩ := ih cache1 cache2 effs1 hloop
    constructor
    · simp [countNotify, Effect.isNotify, List.filter_cons]
      simpa [countNotify] using hcnt
    · intro e he
      rcases List.mem_cons.mp he with he1 | he2
      · exact ⟨vs, he1⟩
      · exact hall e he2

/-- State- and effect-level description of `#notify` on a store: only the
media-query cache changes, and each listener is invoked once with the
current selection. -/
theorem notifyStore_spec (env : Env) (st : ThemeStoreState)
    (st' : ThemeStoreState) (effs : List Effect)
    (h : notifyStore env st = some (st', effs)) :
    st'.currentThemes = st.currentThemes ∧
    st'.systemOptions = st.systemOptions ∧
    st'.defaultThemes = st.defaultThemes ∧
    st'.config = st.config ∧
    st'.key = st.key ∧
    st'.listeners = st.listeners ∧
    st'.aborted = st.aborted ∧
    countNotify effs = st.listeners ∧
    ∀ e ∈ effs, ∃ vs, e = Effect.notify st.currentThemes vs := by
  unfold notifyStore at h
  cases hloop : notifyLoop env st.config st.systemOptions st.currentThemes
      st.listeners st.mediaQueryCache with
  | none => rw [hloop] at h; cases h
  | some r =>
    rw [hloop] at h
    obtain ⟨cache2, effs2⟩ := r
    simp only [Option.map_some'] at h
    injection h with h2
    have hst : st' = { st with mediaQueryCache := cache2 } := (congrArg Prod.fst h2).symm
    have he : effs = effs2 := (congrArg Prod.snd h2).symm
    subst hst
    subst he
    obtain ⟨hcnt, hall⟩ := notifyLoop_spec env st.config st.systemOptions
      st.currentThemes st.listeners st.mediaQueryCache cache2 effs hloop
    exact ⟨rfl, rfl, rfl, rfl, rfl, rfl, rfl, hcnt, hall⟩

/-- `#setThemesAndNotify` installs the given selection, changes no other
field except the media-query cache, and runs one notification pass. -/
theorem setThemesAndNotify_spec (env : Env) (st : ThemeStoreState)
    (themes : SMap String) (st' : ThemeStoreState) (effs : List Effect)
    (h : setThemesAndNotify env st themes = some (st', effs)) :
    st'.currentThemes = themes ∧
    st'.systemOptions = st.systemOptions ∧
    st'.defaultThemes = st.defaultThemes ∧
    st'.config = st.config ∧
    st'.key = st.key ∧
    st'.listeners = st.listeners ∧
    st'.aborted = st.aborted ∧
    countNotify effs = st.listeners ∧
    ∀ e ∈ effs, ∃ vs, e = Effect.notify themes vs := by
  have hspec := notifyStore_spec env { st with currentThemes := themes } st' effs h
  simpa using hspec

/-- Decomposition of `setThemes`: the in-memory update and notification
pass happen first, then one `setItem`, then (only on success) one
`broadcast`; the returned promise rejects exactly when `setItem` does. -/
theorem setThemes_spec (env : Env) (st : ThemeStoreState) (arg : ThemesArg)
    (setItemFails : Bool) (st' : ThemeStoreState) (effs : List Effect) (ok : Bool)
    (h : setThemes env st arg setItemFails = some (st', effs, ok)) :
    ∃ neffs,
      setThemesAndNotify env st
          (SMap.merge st.currentThemes (arg.updateValue st.currentThemes)) =
        some (st', neffs) ∧
      effs = neffs ++ [Effect.setItem st.key (getStateToPersist st')] ++
        (if setItemFails then [] else
          [Effect.broadcast st.key (getStateToPersist st')]) ∧
      ok = !setItemFails := by
  unfold setThemes at h
  cases hsn : setThemesAndNotify env st
      (SMap.merge st.currentThemes (ThemesArg.updateValue st.currentThemes arg)) with
  | none =>
    simp only [hsn] at h
    cases h
  | some r =>
    obtain ⟨st1, effs1⟩ := r
    refine ⟨effs1, ?_⟩
    simp only [hsn] at h
    split at h
    · rename_i hsf
      simp only [Option.some.injEq, Prod.mk.injEq] at h
      obtain ⟨h1, h2, h3⟩ := h
      subst h1
      subst h3
      exact ⟨rfl, by simp [hsf, ← h2], by simp [hsf]⟩
    · rename_i hsf
      rw [Bool.not_eq_true] at hsf
      simp only [Option.some.injEq, Prod.mk.injEq] at h
      obtain ⟨h1, h2, h3⟩ := h
      subst h1
      subst h3
      exact ⟨rfl, by simp [hsf, ← h2], by simp [hsf]⟩

/-- `SMap.set` of an option keyed by its own value preserves the keyed
invariant. -/
theorem optionKeyed_set (d : SMap ThemeOption) (hd : OptionKeyedDim d)
    (t : ThemeOption) : OptionKeyedDim (d.set t.value t) := by
  intro k o h
  rw [SMap.lookup_set] at h
  split at h
  · rename_i heq
    injection h with h2
    subst h2
    exact heq
  · exact hd k o h

/-- `buildDimKeyed` preserves the keyed invariant. -/
theorem buildDimKeyed_keyed (opts : List ConfigOption) :
    ∀ base, OptionKeyedDim base → OptionKeyedDim (buildDimKeyed base opts) := by
  induction opts with
  | nil => intro base hb; exact hb
  | cons o rest ih =>
    intro base hb
    have h1 : buildDimKeyed base (o :: rest) =
        buildDimKeyed
          (match o with
           | .str s => base.set s ⟨s, none⟩
           | .opt t => base.set t.value t)
          rest := rfl
    rw [h1]
    apply ih
    cases o with
    | str s => exact optionKeyed_set base hb ⟨s, none⟩
    | opt t => exact optionKeyed_set base hb t

/-- Every dimension map produced by the constructor's `keyedConfig` loop
keys options by their `value` field. -/
theorem buildKeyedConfig_keyed (config : SMap DimensionConfig) :
    ∀ k d, SMap.lookup (buildKeyedConfig config) k = some d → OptionKeyedDim d := by
  suffices hgen : ∀ (l : List (String × DimensionConfig)) (acc : SMap (SMap ThemeOption)),
      (∀ k d, SMap.lookup acc k = some d → OptionKeyedDim d) →
      ∀ k d, SMap.lookup
        (l.foldl
          (fun acc p => acc.set p.1 (buildDimKeyed ((acc.lookup p.1).getD []) p.2.options))
          acc) k = some d →
      OptionKeyedDim d by
    intro k d h
    exact hgen config [] (fun k d hd => by simp [SMap.lookup] at hd) k d h
  intro l
  induction l with
  | nil => intro acc hacc; exact hacc
  | cons p rest ih =>
    intro acc hacc
    simp only [List.foldl_cons]
    apply ih
    intro k d hd
    rw [SMap.lookup_set] at hd
    split at hd
    · injection hd with h2
      subst h2
      apply buildDimKeyed_keyed
      cases hbase : acc.lookup p.1 with
      | none =>
        intro kk oo hoo
        simp [Option.getD, SMap.lookup] at hoo
      | some b =>
        exact hacc p.1 b hbase
    · exact hacc k d hd

/-- The constructor's `config` field is the keyed configuration. -/
theorem mkThemeStore_fields (key : Option String) (cfg : SMap DimensionConfig)
    (init : InitialState) (st : ThemeStoreState)
    (h : mkThemeStore key cfg init = some st) :
    st.config = buildKeyedConfig cfg ∧
    st.systemOptions = seedSystemOptions cfg init.systemOptions ∧
    st.mediaQueryCache = [] ∧ st.listeners = 0 ∧ st.aborted = false := by
  unfold mkThemeStore at h
  cases hd : getDefaultThemes cfg with
  | none => rw [hd] at h; cases h
  | some defaults =>
    rw [hd] at h
    simp only [Option.map_some'] at h
    injection h with h2
    rw [← h2]
    exact ⟨rfl, rfl, rfl, rfl, rfl⟩

/-- Resolution succeeds on every entry list whose entries are configured and
whose environment-derived options are covered by `systemOptions`. -/
theorem resolveAux_total (env : Env) (config : SMap (SMap ThemeOption))
    (sysOpts : SMap (String × String)) :
    ∀ (entries : List (String × String)) (cache : SMap (String × String)),
    (∀ p ∈ entries, ∃ d o, SMap.lookup config p.1 = some d ∧
        SMap.lookup d p.2 = some o ∧
        (o.media.isSome → env.isClient = true → (SMap.lookup sysOpts p.1).isSome)) →
    (resolveThemesAux env config sysOpts entries cache).isSome := by
  intro entries
  induction entries with
  | nil => intro cache h; simp [resolveThemesAux]
  | cons p rest ih =>
    obtain ⟨tk, ov⟩ := p
    intro cache h
    obtain ⟨d, o, hd, ho, hs⟩ := h (tk, ov) (List.mem_cons_self _ _)
    simp only [resolveThemesAux, hd, ho]
    have hro : (resolveThemeOption env sysOpts cache tk o).isSome := by
      unfold resolveThemeOption
      cases hm : o.media with
      | none => simp
      | some m =>
        obtain ⟨mq, a, b⟩ := m
        by_cases hc : env.isClient = false
        · simp [hc]
        · have hc2 : env.isClient = true := by
            cases henv : env.isClient
            · exact absurd henv hc
            · rfl
          have hcov := hs (by simp [hm]) hc2
          rw [Option.isSome_iff_exists] at hcov
          obtain ⟨pr, hpr⟩ := hcov
          obtain ⟨x, y⟩ := pr
          simp [hc, hpr]
    rw [Option.isSome_iff_exists] at hro
    obtain ⟨r, hr⟩ := hro
    obtain ⟨val, cache1, w1⟩ := r
    rw [hr]
    have htail := ih cache1 (fun q hq => h q (List.mem_cons_of_mem _ hq))
    rw [Option.isSome_iff_exists] at htail
    obtain ⟨r2, hr2⟩ := htail
    obtain ⟨vs, cache2, w2⟩ := r2
    simp [hr2]

/-- Conversely, if resolution succeeds then every entry of the list had a
defined configuration lookup. -/
theorem resolveAux_defined (env : Env) (config : SMap (SMap ThemeOption))
    (sysOpts : SMap (String × String)) :
    ∀ (entries : List (String × String)) (cache : SMap (String × String))
      (r : SMap String × SMap (String × String) × Nat),
    resolveThemesAux env config sysOpts entries cache = some r →
    ∀ p ∈ entries,
      ((SMap.lookup config p.1).bind (fun d => SMap.lookup d p.2)).isSome := by
  intro entries
  induction entries with
  | nil =>
    intro cache r h p hp
    simp at hp
  | cons q rest ih =>
    obtain ⟨tk, ov⟩ := q
    intro cache r h p hp
    simp only [resolveThemesAux] at h
    split at h
    · cases h
    rename_i dimCfg hcfg
    split at h
    · cases h
    rename_i option hopt
    split at h
    · cases h
    rename_i val0 cache1 w1 hro
    split at h
    · cases h
    rename_i vs1 cache2 w2 hrest
    rcases List.mem_cons.mp hp with hp1 | hp2
    · subst hp1
      simp [hcfg, hopt]
    · exact ih cache1 _ hrest p hp2

/-- C1: for every store and every dimension in its current selection,
`getResolvedThemes` resolves the dimension as follows: an option without a
`media` triple resolves to the selected value verbatim; an option with a
`media` triple resolves, in a client context, to the `systemOptions` pair's
first component when the query matches and its second otherwise; and in a
non-client context it resolves to the option's declared static `value`
(equal to the selected value) while emitting a `console.warn`. -/
theorem c1_resolution_cases (key : Option String) (cfg : SMap DimensionConfig)
    (init : InitialState) (st : ThemeStoreState) (env : Env) (k v : String)
    (dimCfg : SMap ThemeOption) (o : ThemeOption) (res : SMap String)
    (st' : ThemeStoreState) (warns : Nat)
    (hmk : mkThemeStore key cfg init = some st)
    (hsel : SMap.lookup st.currentThemes k = some v)
    (hdim : SMap.lookup st.config k = some dimCfg)
    (hopt : SMap.lookup dimCfg v = some o)
    (hres : getResolvedThemes env st = some (res, st', warns)) :
    (o.media = none → SMap.lookup res k = some v) ∧
    (∀ mq a b ifMatch ifNotMatch,
      o.media = some (mq, a, b) → env.isClient = true →
      SMap.lookup st.systemOptions k = some (ifMatch, ifNotMatch) →
      SMap.lookup res k = some (if env.mqMatches mq then ifMatch else ifNotMatch)) ∧
    (∀ mq a b, o.media = some (mq, a, b) → env.isClient = false →
      SMap.lookup res k = some v ∧ 1 ≤ warns) := by
  unfold getResolvedThemes at hres
  cases haux : resolveThemesAux env st.config st.systemOptions st.currentThemes
      st.mediaQueryCache with
  | none => rw [haux] at hres; cases hres
  | some r =>
    rw [haux] at hres
    obtain ⟨vs0, cache0, w0⟩ := r
    simp only [Option.map_some'] at hres
    injection hres with h2
    have hresv : res = vs0 := (congrArg (fun q => q.1) h2).symm
    have hw : warns = w0 := (congrArg (fun q => q.2.2) h2).symm
    subst hresv
    subst hw
    obtain ⟨dimCfg', option', val, w, h1, h2', h3, h4, h5⟩ :=
      resolveAux_lookup env st.config st.systemOptions k v st.currentThemes
        st.mediaQueryCache res cache0 warns haux hsel
    rw [hdim] at h1
    injection h1 with h1e
    subst h1e
    rw [hopt] at h2'
    injection h2' with h2e
    subst h2e
    have hcfg2 : SMap.lookup (buildKeyedConfig cfg) k = some dimCfg := by
      rw [← (mkThemeStore_fields key cfg init st hmk).1]
      exact hdim
    have hkeyed : o.value = v := buildKeyedConfig_keyed cfg k dimCfg hcfg2 v o hopt
    refine ⟨?_, ?_, ?_⟩
    · intro hmedia
      simp [resolveOptionValueWarn, hmedia] at h3
      rw [h4]
      exact congrArg some (h3.1.symm.trans hkeyed)
    · intro mq a b ifMatch ifNotMatch hmedia hclient hsys
      simp [resolveOptionValueWarn, hmedia, hclient, hsys] at h3
      rw [h4]
      exact congrArg some h3.1.symm
    · intro mq a b hmedia hclient
      simp [resolveOptionValueWarn, hmedia, hclient] at h3
      obtain ⟨h31, h32⟩ := h3
      constructor
      · rw [h4]
        exact congrArg some (h31.symm.trans hkeyed)
      · omega

/-- An effect trace made of listener invocations contains no `setItem`. -/
theorem filter_setItem_of_notify (effs : List Effect) (themes : SMap String)
    (hall : ∀ e ∈ effs, ∃ vs, e = Effect.notify themes vs) :
    effs.filter Effect.isSetItem = [] := by
  induction effs with
  | nil => rfl
  | cons e rest ih =>
    obtain ⟨vs, hvs⟩ := hall e (List.mem_cons_self _ _)
    subst hvs
    rw [List.filter_cons_of_neg (by simp [Effect.isSetItem])]
    exact ih (fun e he => hall e (List.mem_cons_of_mem _ he))

/-- C2: `setThemes` with a partial record changes exactly the dimensions
present in the record; all other dimensions keep their prior value and the
`systemOptions` overrides are untouched. -/
theorem c2_setThemes_merge (env : Env) (st : ThemeStoreState) (upd : SMap String)
    (setItemFails : Bool) (st' : ThemeStoreState) (effs : List Effect) (ok : Bool)
    (h : setThemes env st (.patch upd) setItemFails = some (st', effs, ok)) :
    (∀ k v, SMap.lookup upd k = some v → SMap.lookup st'.currentThemes k = some v) ∧
    (∀ k, SMap.lookup upd k = none →
       SMap.lookup st'.currentThemes k = SMap.lookup st.currentThemes k) ∧
    st'.systemOptions = st.systemOptions := by
  obtain ⟨neffs, hsn, heffs, hok⟩ :=
    setThemes_spec env st (.patch upd) setItemFails st' effs ok h
  obtain ⟨hcur, hsys, _, _, _, _, _, _, _⟩ :=
    setThemesAndNotify_spec env st _ st' neffs hsn
  refine ⟨?_, ?_, hsys⟩
  · intro k v hkv
    rw [hcur]
    exact SMap.lookup_merge_some _ _ k v hkv
  · intro k hk
    rw [hcur]
    exact SMap.lookup_merge_none _ _ k hk

/-- C3: the value handed to the backend's `setItem` is exactly
`getStateToPersist()` taken immediately after the in-memory update, i.e. the
envelope `{version: 1, themes: new selection, systemOptions: current
overrides}`, and there is exactly one `setItem` call. -/
theorem c3_persist_snapshot (env : Env) (st : ThemeStoreState) (upd : SMap String)
    (setItemFails : Bool) (st' : ThemeStoreState) (effs : List Effect) (ok : Bool)
    (h : setThemes env st (.patch upd) setItemFails = some (st', effs, ok)) :
    effs.filter Effect.isSetItem = [Effect.setItem st.key (getStateToPersist st')] ∧
    getStateToPersist st' =
      { version := 1
        themes := SMap.merge st.currentThemes upd
        systemOptions := st.systemOptions } := by
  obtain ⟨neffs, hsn, heffs, hok⟩ :=
    setThemes_spec env st (.patch upd) setItemFails st' effs ok h
  obtain ⟨hcur, hsys, _, _, _, _, _, _, hall⟩ :=
    setThemesAndNotify_spec env st _ st' neffs hsn
  constructor
  · subst heffs
    rw [List.filter_append, List.filter_append,
      filter_setItem_of_notify neffs _ hall]
    cases setItemFails <;> simp [Effect.isSetItem]
  · simp only [getStateToPersist]
    rw [hcur, hsys]
    rfl

/-- C6: `restore` treats a versionless payload as a bare selection overlaid
on the per-dimension defaults, leaves `systemOptions` unchanged there,
resets to defaults when nothing is persisted, and in every case runs exactly
one notification pass (each subscriber invoked once). -/
theorem c6_restore (env : Env) (st : ThemeStoreState) :
    (∀ st' effs, restore env st none = some (st', effs) →
       st'.currentThemes = st.defaultThemes ∧
       st'.systemOptions = st.systemOptions ∧
       countNotify effs = st.listeners) ∧
    (∀ bare st' effs, restore env st (some (.legacy bare)) = some (st', effs) →
       (∀ k v, SMap.lookup bare k = some v →
          SMap.lookup (getThemes st') k = some v) ∧
       (∀ k, SMap.lookup bare k = none →
          SMap.lookup (getThemes st') k = SMap.lookup st.defaultThemes k) ∧
       (∀ k, SMap.lookup st'.systemOptions k = SMap.lookup st.systemOptions k) ∧
       countNotify effs = st.listeners) ∧
    (∀ p st' effs, restore env st (some (.versioned p)) = some (st', effs) →
       countNotify effs = st.listeners) := by
  refine ⟨?_, ?_, ?_⟩
  · intro st' effs h
    obtain ⟨hcur, hsys, _, _, _, _, _, hcnt, _⟩ :=
      setThemesAndNotify_spec env st st.defaultThemes st' effs h
    exact ⟨hcur, hsys, hcnt⟩
  · intro bare st' effs h
    obtain ⟨hcur, hsys, _, _, _, hlis, _, hcnt, _⟩ :=
      setThemesAndNotify_spec env
        { st with systemOptions := SMap.merge st.systemOptions st.systemOptions }
        (SMap.merge st.defaultThemes bare) st' effs h
    refine ⟨?_, ?_, ?_, hcnt⟩
    · intro k v hkv
      simp only [getThemes]
      rw [hcur]
      exact SMap.lookup_merge_some _ _ k v hkv
    · intro k hk
      simp only [getThemes]
      rw [hcur]
      exact SMap.lookup_merge_none _ _ k hk
    · intro k
      rw [hsys]
      show SMap.lookup (SMap.merge st.systemOptions st.systemOptions) k =
        SMap.lookup st.systemOptions k
      rw [SMap.lookup_merge]
      cases SMap.lookup st.systemOptions k <;> rfl
  · intro p st' effs h
    obtain ⟨_, _, _, _, _, _, _, hcnt, _⟩ :=
      setThemesAndNotify_spec env
        { st with systemOptions := SMap.merge st.systemOptions p.systemOptions }
        (SMap.merge st.defaultThemes p.themes) st' effs h
    exact hcnt

/-- C7: when the backend's `setItem` rejects, `setThemes` returns a rejected
promise (never swallowed), issues no retry and no broadcast, and the
in-memory update together with the full notification pass has already
happened synchronously before the persistence attempt; there is no
rollback. -/
theorem c7_persist_rejection (env : Env) (st : ThemeStoreState) (arg : ThemesArg)
    (st' : ThemeStoreState) (effs : List Effect) (ok : Bool)
    (h : setThemes env st arg true = some (st', effs, ok)) :
    ok = false ∧
    st'.currentThemes =
      SMap.merge st.currentThemes (arg.updateValue st.currentThemes) ∧
    st'.systemOptions = st.systemOptions ∧
    (∃ neffs,
      effs = neffs ++ [Effect.setItem st.key (getStateToPersist st')] ∧
      countNotify neffs = st.listeners ∧
      ∀ e ∈ neffs, ∃ vs, e = Effect.notify st'.currentThemes vs) ∧
    effs.filter Effect.isSetItem = [Effect.setItem st.key (getStateToPersist st')] ∧
    (∀ k p, Effect.broadcast k p ∉ effs) := by
  obtain ⟨neffs, hsn, heffs, hok⟩ := setThemes_spec env st arg true st' effs ok h
  obtain ⟨hcur, hsys, _, _, _, _, _, hcnt, hall⟩ :=
    setThemesAndNotify_spec env st _ st' neffs hsn
  simp at heffs
  refine ⟨by simp [hok], hcur, hsys, ⟨neffs, heffs, hcnt, ?_⟩, ?_, ?_⟩
  · intro e he
    obtain ⟨vs, hvs⟩ := hall e he
    exact ⟨vs, by rw [hvs, hcur]⟩
  · subst heffs
    rw [List.filter_append, filter_setItem_of_notify neffs _ hall]
    simp [Effect.isSetItem]
  · intro k p hmem
    subst heffs
    rcases List.mem_append.mp hmem with hm | hm
    · obtain ⟨vs, hvs⟩ := hall _ hm
      cases hvs
    · rcases List.mem_singleton.mp hm with hm2
      cases hm2

/-- C4 counterexample: the `sync` watch handler does not merge the payload
the way `restore` does.  On the same store and the same versioned payload,
the handler replaces `systemOptions` wholesale (dropping the caller-provided
`("a", ("p", "q"))` override) and replaces the selection wholesale (dropping
dimension `"b"`, which `restore` would refill from the defaults). -/
theorem c4_counterexample :
    ((mkThemeStore none cfgPlain initSysPQ).bind (fun st0 =>
       (syncEvent envNoMatch st0 "palettez" ⟨1, [("a", "x2")], []⟩).map (fun r =>
         (r.1.systemOptions, r.1.currentThemes))))
      = some ([], [("a", "x2")]) ∧
    ((mkThemeStore none cfgPlain initSysPQ).bind (fun st0 =>
       (restore envNoMatch st0 (some (.versioned ⟨1, [("a", "x2")], []⟩))).map (fun r =>
         (r.1.systemOptions, r.1.currentThemes))))
      = some ([("a", ("p", "q"))], [("a", "x2"), ("b", "y")]) := by
  constructor <;> decide

/-- C4 amended: for every external watch event delivered to the store's own
key with a versioned payload, the sync handler *replaces* the overrides with
the payload's `systemOptions` and *replaces* the selection with the
payload's `themes` wholesale — no merging with the current overrides or the
per-dimension defaults — and notifies each subscriber once per event;
events for other keys are ignored. -/
theorem c4_sync_replaces (env : Env) (st : ThemeStoreState) (key : String)
    (p : PersistedState) (hab : st.aborted = false) :
    (key = st.key → ∀ st' effs, syncEvent env st key p = some (st', effs) →
       st'.systemOptions = p.systemOptions ∧
       st'.currentThemes = p.themes ∧
       countNotify effs = st.listeners) ∧
    (key ≠ st.key → syncEvent env st key p = some (st, [])) := by
  constructor
  · intro hkey st' effs h
    subst hkey
    simp only [syncEvent, hab, Bool.false_eq_true, if_false, ne_eq,
      not_true_eq_false, if_neg] at h
    have hspec := setThemesAndNotify_spec env _ p.themes st' effs h
    exact ⟨hspec.2.1, hspec.1, hspec.2.2.2.2.2.2.2.1⟩
  · intro hkey
    simp [syncEvent, hab, hkey]

/-- The per-dimension resolved value of a selected environment-derived
option in a client context: the `systemOptions` pair selected by the live
state of its media query. -/
theorem resolved_media_value (env : Env) (st : ThemeStoreState)
    (k v mq a b ifMatch ifNotMatch : String) (dimCfg : SMap ThemeOption)
    (o : ThemeOption) (res : SMap String) (st' : ThemeStoreState) (w : Nat)
    (hsel : SMap.lookup st.currentThemes k = some v)
    (hdim : SMap.lookup st.config k = some dimCfg)
    (hopt : SMap.lookup dimCfg v = some o)
    (hmedia : o.media = some (mq, a, b))
    (hsys : SMap.lookup st.systemOptions k = some (ifMatch, ifNotMatch))
    (hclient : env.isClient = true)
    (hres : getResolvedThemes env st = some (res, st', w)) :
    SMap.lookup res k = some (if env.mqMatches mq then ifMatch else ifNotMatch) := by
  unfold getResolvedThemes at hres
  cases haux : resolveThemesAux env st.config st.systemOptions st.currentThemes
      st.mediaQueryCache with
  | none => rw [haux] at hres; cases hres
  | some r =>
    rw [haux] at hres
    obtain ⟨vs0, cache0, w0⟩ := r
    simp only [Option.map_some'] at hres
    injection hres with h2
    have hresv : res = vs0 := (congrArg (fun q => q.1) h2).symm
    subst hresv
    obtain ⟨dimCfg', option', val, ww, h1, h2', h3, h4, h5⟩ :=
      resolveAux_lookup env st.config st.systemOptions k v st.currentThemes
        st.mediaQueryCache res cache0 w0 haux hsel
    rw [hdim] at h1
    injection h1 with h1e
    subst h1e
    rw [hopt] at h2'
    injection h2' with h2e
    subst h2e
    simp [resolveOptionValueWarn, hmedia, hclient, hsys] at h3
    rw [h4]
    exact congrArg some h3.1.symm

/-- C5 counterexample: two dimensions share the predicate expression
`"mq"`.  After resolving once (which registers the single `"mq"` listener
for dimension `"a"` selecting `"sys"`) and then switching `"a"` to
`"light"`, dimension `"b"` still selects its environment-derived option
`"auto"` (media query `"mq"`), there is one subscriber, and flipping `"mq"`
changes `"b"`'s resolved value from `"off"` to `"on"` — yet the change
handler produces zero notifications, because its registration-time check is
`currentThemes["a"] === "sys"`, not "some dimension selects the flipped
predicate's option" as the claim asserts. -/
theorem c5_counterexample :
    c5state.map (fun st => SMap.lookup st.currentThemes "b") = some (some "auto") ∧
    c5state.map (fun st => (SMap.lookup st.config "b").bind (fun d => SMap.lookup d "auto"))
      = some (some ⟨"auto", some ("mq", "on", "off")⟩) ∧
    c5state.bind (fun st => (getResolvedThemes envNoMatch st).map (fun q => SMap.lookup q.1 "b"))
      = some (some "off") ∧
    c5state.bind (fun st => (getResolvedThemes envMatchMq st).map (fun q => SMap.lookup q.1 "b"))
      = some (some "on") ∧
    c5state.map (fun st => st.listeners) = some 1 ∧
    c5state.bind (fun st => (mediaChange envMatchMq st "mq").map (fun r => r.2))
      = some [] := by
  refine ⟨?_, ?_, ?_, ?_, ?_, ?_⟩ <;> decide

/-- C5 amended: the re-resolve condition of the `change` listener for a
registered media query is that the dimension which first registered it
still selects the registered option value.  When that holds, the flip
triggers exactly one notification pass (each subscriber invoked once) with
the selection unchanged, and the resolved value of a selected
environment-derived dimension moves from the override pair's
`valueIfNotMatch` to its `valueIfMatch`; when the registered dimension does
not select the registered option — even if another dimension sharing the
expression does — the flip triggers zero notifications. -/
theorem c5_mediaChange_flip (env : Env) (st : ThemeStoreState)
    (mq themeKey optionValue : String)
    (hab : st.aborted = false)
    (hreg : SMap.lookup st.mediaQueryCache mq = some (themeKey, optionValue)) :
    (SMap.lookup st.currentThemes themeKey ≠ some optionValue →
       mediaChange env st mq = some (st, [])) ∧
    (SMap.lookup st.currentThemes themeKey = some optionValue →
       ∀ st' effs, mediaChange env st mq = some (st', effs) →
         st'.currentThemes = st.currentThemes ∧
         st'.systemOptions = st.systemOptions ∧
         countNotify effs = st.listeners) ∧
    (∀ envF envT a b dimCfg o ifMatch ifNotMatch res0 res1 stA stB w0 w1,
       SMap.lookup st.currentThemes themeKey = some optionValue →
       SMap.lookup st.config themeKey = some dimCfg →
       SMap.lookup dimCfg optionValue = some o →
       o.media = some (mq, a, b) →
       SMap.lookup st.systemOptions themeKey = some (ifMatch, ifNotMatch) →
       envF.isClient = true → envT.isClient = true →
       envF.mqMatches mq = false → envT.mqMatches mq = true →
       getResolvedThemes envF st = some (res0, stA, w0) →
       getResolvedThemes envT st = some (res1, stB, w1) →
       SMap.lookup res0 themeKey = some ifNotMatch ∧
       SMap.lookup res1 themeKey = some ifMatch) := by
  refine ⟨?_, ?_, ?_⟩
  · intro hne
    simp [mediaChange, hab, hreg, hne]
  · intro heq st' effs h
    simp only [mediaChange, hab, Bool.false_eq_true, if_false, hreg, heq,
      if_pos rfl] at h
    have hspec := setThemesAndNotify_spec env st st.currentThemes st' effs h
    exact ⟨hspec.1, hspec.2.1, hspec.2.2.2.2.2.2.2.1⟩
  · intro envF envT a b dimCfg o ifMatch ifNotMatch res0 res1 stA stB w0 w1
      hsel hdim hopt hmedia hsys hcF hcT hmF hmT hres0 hres1
    constructor
    · have := resolved_media_value envF st themeKey optionValue mq a b ifMatch
        ifNotMatch dimCfg o res0 stA w0 hsel hdim hopt hmedia hsys hcF hres0
      rwa [hmF] at this
    · have := resolved_media_value envT st themeKey optionValue mq a b ifMatch
        ifNotMatch dimCfg o res1 stB w1 hsel hdim hopt hmedia hsys hcT hres1
      rwa [hmT] at this

/-- C8: `Registry.get` and `Registry.destroy` throw the not-found error
exactly when no store is registered under the (defaulted) key, and
`Registry.create` on a taken key first destroys the existing instance
(clearing its listeners and aborting its subscriptions) and then installs
the new one, which is afterwards the only store under that key. -/
theorem c8_registry_lifecycle (r : RegistryState) (key : Option String)
    (opts : StoreOptions) :
    (registryGet r key = .error () ↔
       SMap.lookup r.reg (registryKey key) = none) ∧
    (registryDestroy r key = .error () ↔
       SMap.lookup r.reg (registryKey key) = none) ∧
    (∀ old rr newStore destroyed,
       SMap.lookup r.reg (registryKey opts.key) = some old →
       registryCreate r opts = some (rr, newStore, destroyed) →
       destroyed = some (destroyStore old) ∧
       (destroyStore old).listeners = 0 ∧
       (destroyStore old).aborted = true ∧
       SMap.lookup rr.reg (registryKey opts.key) = some newStore) := by
  refine ⟨?_, ?_, ?_⟩
  · unfold registryGet
    cases hl : SMap.lookup r.reg (registryKey key) <;> simp
  · unfold registryDestroy
    cases hl : SMap.lookup r.reg (registryKey key) <;> simp
  · intro old rr newStore destroyed hold hcr
    unfold registryCreate at hcr
    simp only [hold] at hcr
    cases hmk : mkThemeStore opts.key opts.config opts.initialState with
    | none =>
      rw [hmk] at hcr
      cases hcr
    | some newSt =>
      simp only [hmk, Option.some.injEq, Prod.mk.injEq] at hcr
      obtain ⟨h1, h2, h3⟩ := hcr
      subst h1
      subst h2
      subst h3
      refine ⟨rfl, rfl, rfl, ?_⟩
      rw [SMap.lookup_set]
      simp

/-- C9: destroying a store is idempotent in effect — `_destroy` twice
equals `_destroy` once (so the second call cannot throw or double-free); it
clears the listener set and trips the shared `AbortController`, after which
neither a media-query change nor a persistence watch event produces any
effect for the instance; and `Registry.destroy` removes the entry, so the
key no longer resolves. -/
theorem c9_destroy_idempotent (st : ThemeStoreState) (env : Env)
    (r : RegistryState) (key : Option String) :
    destroyStore (destroyStore st) = destroyStore st ∧
    (destroyStore st).listeners = 0 ∧
    (destroyStore st).aborted = true ∧
    (∀ mq, mediaChange env (destroyStore st) mq = some (destroyStore st, [])) ∧
    (∀ k p, syncEvent env (destroyStore st) k p = some (destroyStore st, [])) ∧
    (∀ rr dSt, registryDestroy r key = .ok (rr, dSt) →
       SMap.lookup rr.reg (registryKey key) = none) := by
  refine ⟨rfl, rfl, rfl, ?_, ?_, ?_⟩
  · intro mq
    simp [mediaChange, destroyStore]
  · intro k p
    simp [syncEvent, destroyStore]
  · intro rr dSt h
    unfold registryDestroy at h
    cases hl : SMap.lookup r.reg (registryKey key) with
    | none =>
      rw [hl] at h
      cases h
    | some stx =>
      simp only [hl, Except.ok.injEq, Prod.mk.injEq] at h
      obtain ⟨h1, _⟩ := h
      rw [← h1]
      exact SMap.lookup_erase_self _ _

/-- C10 counterexample: a reachable store (construct, then receive one
`sync` watch event whose versioned payload has an empty `systemOptions`
object) whose selection lies entirely within the configuration — yet
`getResolvedThemes` throws, because the selected option is
environment-derived and the handler discarded its `systemOptions` entry.
Being within the configuration is therefore not sufficient for resolution
to be total, contrary to the claim. -/
theorem c10_counterexample :
    ((mkThemeStore none cfgMediaOnly ⟨[], none⟩).bind (fun st0 =>
       (syncEvent envMatchMq st0 "palettez" ⟨1, [("a", "sys")], []⟩).map (fun r =>
         (inConfigB r.1.config r.1.currentThemes,
          (getResolvedThemes envMatchMq r.1).isSome))))
      = some (true, false) := by
  decide

/-- C10 amended: resolution is total exactly on selections that stay within
the configuration *and* whose environment-derived selected options are
covered by `systemOptions` (the constructor seeds that coverage and
`setThemes` preserves both `config` and `systemOptions`): under those two
checks `getResolvedThemes` never reaches an undefined lookup, while any
selection entry whose configuration lookup is undefined makes
`getResolvedThemes` throw; and `setThemes` does accept arbitrary unknown
dimension keys and unknown option values into the merged selection. -/
theorem c10_resolution_totality (env : Env) (st : ThemeStoreState) :
    (inConfigB st.config st.currentThemes = true → sysCoverB st = true →
       (getResolvedThemes env st).isSome) ∧
    (∀ p ∈ st.currentThemes,
       ((SMap.lookup st.config p.1).bind (fun d => SMap.lookup d p.2)) = none →
       getResolvedThemes env st = none) ∧
    (∀ upd setItemFails st' effs ok,
       setThemes env st (.patch upd) setItemFails = some (st', effs, ok) →
       st'.config = st.config ∧ st'.systemOptions = st.systemOptions ∧
       ∀ k v, SMap.lookup upd k = some v →
         SMap.lookup st'.currentThemes k = some v) := by
  refine ⟨?_, ?_, ?_⟩
  · intro h1 h2
    unfold getResolvedThemes
    rw [Option.isSome_map']
    apply resolveAux_total
    intro p hp
    rw [inConfigB, List.all_eq_true] at h1
    rw [sysCoverB, List.all_eq_true] at h2
    have hc1 := h1 p hp
    have hc2 := h2 p hp
    cases hd : SMap.lookup st.config p.1 with
    | none => rw [hd] at hc1; cases hc1
    | some d =>
      rw [hd] at hc1
      simp only at hc1
      rw [Option.isSome_iff_exists] at hc1
      obtain ⟨o, ho⟩ := hc1
      refine ⟨d, o, rfl, ho, ?_⟩
      intro hmedia _
      simp only [hd, ho, Option.some_bind] at hc2
      cases hm : o.media with
      | none => rw [hm] at hmedia; cases hmedia
      | some m => rw [hm] at hc2; exact hc2
  · intro p hp hnone
    unfold getResolvedThemes
    cases haux : resolveThemesAux env st.config st.systemOptions st.currentThemes
        st.mediaQueryCache with
    | none => rfl
    | some r =>
      have := resolveAux_defined env st.config st.systemOptions st.currentThemes
        st.mediaQueryCache r haux p hp
      rw [hnone] at this
      cases this
  · intro upd setItemFails st' effs ok h
    obtain ⟨neffs, hsn, _, _⟩ :=
      setThemes_spec env st (.patch upd) setItemFails st' effs ok h
    obtain ⟨hcur, hsys, _, hcfg, _, _, _, _, _⟩ :=
      setThemesAndNotify_spec env st _ st' neffs hsn
    refine ⟨hcfg, hsys, ?_⟩
    intro k v hkv
    rw [hcur]
    exact SMap.lookup_merge_some _ _ k v hkv

/-- Witness for C1 at a concrete store: dimension `"a"` selects the
environment-derived `"sys"` option; under a non-matching client environment
the resolved value is the override pair's `valueIfNotMatch`. -/
theorem c1_resolution_cases_witness :
    mkThemeStore none cfgMedia ⟨[], none⟩ = some stMedia ∧
    SMap.lookup [("a", "light")] "a" =
      some (if envNoMatch.mqMatches "mq" then "dark" else "light") :=
  ⟨by decide,
   (c1_resolution_cases none cfgMedia ⟨[], none⟩ stMedia envNoMatch "a" "sys"
       [("sys", ⟨"sys", some ("mq", "dark", "light")⟩), ("light", ⟨"light", none⟩)]
       ⟨"sys", some ("mq", "dark", "light")⟩ [("a", "light")] stMediaReg 0
       (by decide) (by decide) (by decide) (by decide) (by decide)).2.1
     "mq" "dark" "light" "dark" "light" rfl rfl (by decide)⟩

/-- Witness for C2 at a concrete store: updating `"a"` leaves `"b"` and the
overrides untouched. -/
theorem c2_setThemes_merge_witness :
    SMap.lookup stPlainX2.currentThemes "b" =
      SMap.lookup stPlain.currentThemes "b" ∧
    stPlainX2.systemOptions = stPlain.systemOptions :=
  ⟨(c2_setThemes_merge envNoMatch stPlain [("a", "x2")] false stPlainX2
       [Effect.setItem "palettez" persistX2, Effect.broadcast "palettez" persistX2]
       true (by decide)).2.1 "b" (by decide),
   (c2_setThemes_merge envNoMatch stPlain [("a", "x2")] false stPlainX2
       [Effect.setItem "palettez" persistX2, Effect.broadcast "palettez" persistX2]
       true (by decide)).2.2⟩

/-- Witness for C3 at a concrete store. -/
theorem c3_persist_snapshot_witness :
    ([Effect.setItem "palettez" persistX2,
      Effect.broadcast "palettez" persistX2].filter Effect.isSetItem =
       [Effect.setItem stPlain.key (getStateToPersist stPlainX2)]) ∧
    getStateToPersist stPlainX2 =
      { version := 1
        themes := SMap.merge stPlain.currentThemes [("a", "x2")]
        systemOptions := stPlain.systemOptions } :=
  c3_persist_snapshot envNoMatch stPlain [("a", "x2")] false stPlainX2
    [Effect.setItem "palettez" persistX2, Effect.broadcast "palettez" persistX2]
    true (by decide)

/-- Witness for the amended C4 at a concrete store: the handler installs
the payload's `systemOptions` and `themes` verbatim. -/
theorem c4_sync_replaces_witness :
    stSyncReplaced.systemOptions = persistRS.systemOptions ∧
    stSyncReplaced.currentThemes = persistRS.themes ∧
    countNotify [] = stPlain.listeners :=
  (c4_sync_replaces envNoMatch stPlain "palettez" persistRS rfl).1 rfl
    stSyncReplaced [] (by decide)

/-- Witness for the amended C5 at a concrete store: the registered
dimension selects the registered option, so the flip notifies the one
subscriber exactly once, and the resolved value moves from `"light"` to
`"dark"`. -/
theorem c5_mediaChange_flip_witness :
    (stMediaRegL.currentThemes = stMediaRegL.currentThemes ∧
     stMediaRegL.systemOptions = stMediaRegL.systemOptions ∧
     countNotify [Effect.notify [("a", "sys")] [("a", "dark")]] =
       stMediaRegL.listeners) ∧
    (SMap.lookup [("a", "light")] "a" = some "light" ∧
     SMap.lookup [("a", "dark")] "a" = some "dark") :=
  have happ := c5_mediaChange_flip envMatchMq stMediaRegL "mq" "a" "sys"
    rfl (by decide)
  ⟨happ.2.1 (by decide) stMediaRegL
      [Effect.notify [("a", "sys")] [("a", "dark")]] (by decide),
   happ.2.2 envNoMatch envMatchMq "dark" "light"
     [("sys", ⟨"sys", some ("mq", "dark", "light")⟩), ("light", ⟨"light", none⟩)]
     ⟨"sys", some ("mq", "dark", "light")⟩ "dark" "light"
     [("a", "light")] [("a", "dark")] stMediaRegL stMediaRegL 0 0
     (by decide) (by decide) (by decide) rfl (by decide) rfl rfl rfl (by decide)
     (by decide) (by decide)⟩

/-- Witness for C6 at a concrete store: restoring a legacy bare map yields
the persisted value for `"a"`, the default for `"b"`, unchanged overrides,
and one notification to the single subscriber. -/
theorem c6_restore_witness :
    SMap.lookup (getThemes { stPlainX2 with listeners := 1 }) "a" = some "x2" ∧
    SMap.lookup (getThemes { stPlainX2 with listeners := 1 }) "b" =
      SMap.lookup ({ stPlain with listeners := 1 } : ThemeStoreState).defaultThemes "b" ∧
    SMap.lookup ({ stPlainX2 with listeners := 1 } : ThemeStoreState).systemOptions "a" =
      SMap.lookup ({ stPlain with listeners := 1 } : ThemeStoreState).systemOptions "a" ∧
    countNotify [Effect.notify [("a", "x2"), ("b", "y")] [("a", "x2"), ("b", "y")]] =
      ({ stPlain with listeners := 1 } : ThemeStoreState).listeners :=
  have happ := (c6_restore envNoMatch { stPlain with listeners := 1 }).2.1
    [("a", "x2")] { stPlainX2 with listeners := 1 }
    [Effect.notify [("a", "x2"), ("b", "y")] [("a", "x2"), ("b", "y")]] (by decide)
  ⟨happ.1 "a" "x2" (by decide), happ.2.1 "b" (by decide), happ.2.2.1 "a", happ.2.2.2⟩

/-- Witness for C7 at a concrete store with one subscriber and a rejecting
`setItem`: the new selection is in place, the notification precedes the
single persistence attempt, and nothing is broadcast. -/
theorem c7_persist_rejection_witness :
    ({ stPlainX2 with listeners := 1 } : ThemeStoreState).currentThemes =
      SMap.merge ({ stPlain with listeners := 1 } : ThemeStoreState).currentThemes
        (ThemesArg.updateValue
          ({ stPlain with listeners := 1 } : ThemeStoreState).currentThemes
          (.patch [("a", "x2")])) ∧
    ([Effect.notify [("a", "x2"), ("b", "y")] [("a", "x2"), ("b", "y")],
      Effect.setItem "palettez" persistX2].filter Effect.isSetItem =
      [Effect.setItem ({ stPlain with listeners := 1 } : ThemeStoreState).key
        (getStateToPersist { stPlainX2 with listeners := 1 })]) :=
  have happ := c7_persist_rejection envNoMatch { stPlain with listeners := 1 }
    (.patch [("a", "x2")]) { stPlainX2 with listeners := 1 }
    [Effect.notify [("a", "x2"), ("b", "y")] [("a", "x2"), ("b", "y")],
     Effect.setItem "palettez" persistX2] false (by decide)
  ⟨happ.2.1, happ.2.2.2.2.1⟩

/-- Witness for C8 at a concrete registry holding one store: `create` under
the taken default key destroys the old instance and installs the new one. -/
theorem c8_registry_lifecycle_witness :
    some ({ stPlain with aborted := true } : ThemeStoreState) =
      some (destroyStore stPlain) ∧
    ((destroyStore stPlain).listeners = 0 ∧ (destroyStore stPlain).aborted = true) ∧
    SMap.lookup [("palettez", stPlain)] (registryKey none) = some stPlain :=
  have happ := (c8_registry_lifecycle ⟨[("palettez", stPlain)]⟩ none
      ⟨none, cfgPlain, ⟨[], none⟩⟩).2.2 stPlain ⟨[("palettez", stPlain)]⟩ stPlain
      (some { stPlain with aborted := true }) (by decide) (by decide)
  ⟨happ.1, ⟨happ.2.1, happ.2.2.1⟩, happ.2.2.2⟩

/-- Witness for C9 at a concrete store and registry: after destruction the
registered-and-selected media query no longer produces any effect, and the
registry entry is gone. -/
theorem c9_destroy_idempotent_witness :
    mediaChange envMatchMq (destroyStore stMediaReg) "mq" =
      some (destroyStore stMediaReg, []) ∧
    SMap.lookup ([] : SMap ThemeStoreState) (registryKey none) = none :=
  have happ := c9_destroy_idempotent stMediaReg envMatchMq
    ⟨[("palettez", stPlain)]⟩ none
  ⟨happ.2.2.2.1 "mq", happ.2.2.2.2.2 ⟨[]⟩ (destroyStore stPlain) (by rfl)⟩

/-- Witness for the amended C10: a store whose selection is configured and
covered resolves successfully; a store whose selection contains an
unconfigured dimension makes `getResolvedThemes` throw. -/
theorem c10_resolution_totality_witness :
    (getResolvedThemes envMatchMq stMedia).isSome ∧
    getResolvedThemes envMatchMq
      { stPlain with currentThemes := [("c", "z")] } = none :=
  ⟨(c10_resolution_totality envMatchMq stMedia).1 (by decide) (by decide),
   (c10_resolution_totality envMatchMq
       { stPlain with currentThemes := [("c", "z")] }).2.1 ("c", "z")
     (by decide) (by decide)⟩

end Palettez
